import Mathlib

/-!
Verification development for the pymcpevals core evaluation engine
(src/pymcpevals/core.py and its collaborators).

Conventions of the shallow embedding:
* Python strings are Lean `String`s; the Python helpers `str.strip`,
  `str.split("\n")`, slicing and `in` are embedded as executable functions
  over the underlying character lists (`pyStrip`, `splitNl`, `pyTake`,
  `strContains`).
* Python floats are modelled as exact rationals (`ℚ`); the arithmetic the
  code performs (sums, division by 5) is carried out exactly.
* The external collaborators (the LLM completion client `acompletion`, the
  tool client `call_tool` / `list_tools`, and the JSON decoder
  `json.loads`) are modelled as oracle functions supplied as parameters;
  exceptions raised by collaborators are `Except.error` values.
* Python dicts with optional keys become structures with `Option` fields:
  a key that is absent is `none`.
-/

namespace Pymcpevals

/-- Characters removed by Python `str.strip()` with no argument. -/
def pySpace (c : Char) : Bool :=
  c = ' ' || c = '\t' || c = '\n' || c = '\r' || c = '\x0b' || c = '\x0c'

/-- Embedding of Python `s.strip()`: drop leading and trailing whitespace. -/
def pyStrip (s : String) : String :=
  ⟨((s.data.dropWhile pySpace).reverse.dropWhile pySpace).reverse⟩

/-- Splitting a character list at newline characters, Python
`str.split("\n")` semantics (the empty string yields one empty field). -/
def splitNlChars : List Char → List (List Char)
  | [] => [[]]
  | c :: cs =>
    if c = '\n' then [] :: splitNlChars cs
    else
      match splitNlChars cs with
      | [] => [[c]]
      | h :: t => (c :: h) :: t

/-- Embedding of Python `s.split("\n")`. -/
def splitNl (s : String) : List String :=
  (splitNlChars s.data).map String.mk

/-- Embedding of Python `"\n".join(lines)`. -/
def joinNl (ls : List String) : String :=
  String.intercalate "\n" ls

/-- Embedding of Python `s.startswith(pre)`. -/
def pyStartsWith (s pre : String) : Bool :=
  pre.data.isPrefixOf s.data

/-- Helper for substring search: does `needle` occur in the list? -/
def containsAux (needle : List Char) : List Char → Bool
  | [] => needle.isEmpty
  | c :: cs => needle.isPrefixOf (c :: cs) || containsAux needle cs

/-- Embedding of Python `needle in hay` on strings. -/
def strContains (hay needle : String) : Bool :=
  containsAux needle.data hay.data

/-- Number of characters of a string (Python `len`). -/
def pyLen (s : String) : Nat :=
  s.data.length

/-- Embedding of Python slicing `s[:n]`. -/
def pyTake (s : String) (n : Nat) : String :=
  ⟨s.data.take n⟩

/-- One tool advertised by the MCP server via `list_tools()` (external
interface shape of §6; the input schema is opaque to the core). -/
structure ToolInfo where
  name : String
  description : String
  inputSchema : String
  deriving Repr, DecidableEq

/-- One tool call requested by the agent LLM: `{id, type, function:{name,
arguments}}`, with `arguments` an opaque JSON string passed through
verbatim. -/
structure ToolCallSpec where
  id : String
  typ : Option String
  name : String
  arguments : String
  deriving Repr, DecidableEq

/-- One item of a list-shaped tool result content: it either carries a
`.text` attribute or is stringified. -/
inductive ContentItem where
  | textItem (s : String)
  | plainItem (s : String)
  deriving Repr, DecidableEq

/-- Shape of a tool call result as duck-typed by `_execute_tool_call`:
a `.data` payload, a `.content` string, a `.content` list, or anything
else (stringified). -/
inductive ToolResultRep where
  | dataField (s : String)
  | contentStr (s : String)
  | contentList (items : List ContentItem)
  | plain (s : String)
  deriving Repr, DecidableEq

/-- Turn-validation metadata (`_turn_metadata` in the unit tests):
turn_index, expected_tools, actual_tools, tools_match. -/
structure TurnMeta where
  turnIndex : Nat
  expectedTools : List String
  actualTools : List String
  toolsMatch : Bool
  deriving Repr, DecidableEq

/-- One message dict of the conversation history.  Keys that a given
append site omits are `none` / `[]`. -/
structure Message where
  role : String
  content : Option String
  toolCalls : List ToolCallSpec := []
  toolCallId : Option String := none
  turnMetadata : Option TurnMeta := none
  deriving Repr, DecidableEq

/-- One entry of `tool_call_details` as appended by `_execute_tool_call`
(dict with keys tool_name, arguments, success, execution_time_ms, and
either result_preview or error_message; a `hallucinated` key would be
`some` if ever written). -/
structure ToolCallRecord where
  toolName : String
  arguments : String
  success : Bool
  executionTimeMs : ℚ
  resultPreview : Option String := none
  errorMessage : Option String := none
  hallucinated : Option Bool := none
  deriving Repr, DecidableEq

/-- Modelled from the spec: `ConversationTurn` lives in the missing
`types.py` module; per spec §3 it has role ∈ {user, assistant, system},
content text, and optional expected_tools. -/
structure ConversationTurn where
  role : String
  content : String
  expectedTools : Option (List String) := none
  deriving Repr, DecidableEq

/-- Modelled from the spec: `EvaluationResult` lives in the missing
`types.py` module; per spec §3/§6 it has the five sub-scores (bounded
0–5), average_score, overall_comments, passed (false unless set),
tools_used, tool_call_details, total_execution_time_ms,
failed_tool_calls, optional error, and the identifying fields. -/
structure EvaluationResult where
  accuracy : ℚ
  completeness : ℚ
  relevance : ℚ
  clarity : ℚ
  reasoning : ℚ
  averageScore : ℚ
  overallComments : String := ""
  passed : Bool := false
  prompt : Option String := none
  serverResponse : Option String := none
  conversationHistory : List Message := []
  toolsUsed : List String := []
  toolCallDetails : List ToolCallRecord := []
  totalExecutionTimeMs : ℚ := 0
  failedToolCalls : Nat := 0
  expectedResult : Option String := none
  modelUsed : String := ""
  serverSource : String := ""
  error : Option String := none
  deriving Repr, DecidableEq

/-- Parsed judge JSON object: the five scores plus overall_comments. -/
structure JudgeEval where
  accuracy : ℚ
  completeness : ℚ
  relevance : ℚ
  clarity : ℚ
  reasoning : ℚ
  overallComments : String
  deriving Repr, DecidableEq

/-- Outcome of handing the (fence-stripped) judge text to `json.loads`
and reading the five keys: parsed, a JSONDecodeError, or another
exception (missing key, wrong type, pydantic validation). -/
inductive JsonOutcome where
  | ok (ev : JudgeEval)
  | decodeError (msg : String)
  | otherError (msg : String)
  deriving Repr, DecidableEq

/-- The agent LLM response message: optional text content and a possibly
empty list of requested tool calls. -/
structure AgentResponse where
  content : Option String
  toolCalls : List ToolCallSpec := []
  deriving Repr, DecidableEq

/-- Oracle for `acompletion` driving the conversation: the Bool records
whether the tools were attached to this request. -/
abbrev AgentOracle := Bool → List Message → Except String AgentResponse

/-- Oracle for `client.call_tool name arguments`, returning the call
outcome together with the elapsed milliseconds measured around the call
(the timer is read on the success and on the failure path alike). -/
abbrev ToolOracle := String → String → Except String ToolResultRep × ℚ

/-- Oracle for the judge `acompletion` call: maps the evaluation prompt to
the response message content (which may be absent). -/
abbrev JudgeOracle := String → Except String (Option String)

/-- Oracle for `json.loads` plus key extraction on the judge text. -/
abbrev ParseOracle := String → JsonOutcome

/-- Embedding of `_setup_tools_from_server` (core.py lines 14-33): format
each advertised tool as a function declaration for the LLM. -/
structure FormattedTool where
  typ : String
  name : String
  description : String
  parameters : String
  deriving Repr, DecidableEq

/-- Formatting step of `_setup_tools_from_server`. -/
def setup_tools_from_server (tools : List ToolInfo) : List FormattedTool :=
  tools.map (fun t => ⟨"function", t.name, t.description, t.inputSchema⟩)

/-- Result-text formatting of `_execute_tool_call` (core.py lines 53-66):
prefer `.data`, else `.content` (join the textual parts of a list with
newlines), else stringify. -/
def formatToolResult : ToolResultRep → String
  | .dataField s => s
  | .contentStr s => s
  | .contentList items =>
    joinNl (items.map (fun it =>
      match it with
      | .textItem s => s
      | .plainItem s => s))
  | .plain s => s

/-- Preview truncation of `_execute_tool_call` (core.py lines 75-79):
first 100 characters plus an ellipsis when longer than 100. -/
def resultPreviewOf (resultText : String) : String :=
  if pyLen resultText > 100 then pyTake resultText 100 ++ "..." else resultText

/-- Embedding of `_execute_tool_call` (core.py lines 36-105).  The tool
name is appended to `tools_used` unconditionally before the call is
attempted; the call either succeeds (record with success, timing and
preview; tool message carries the full text) or raises (record with
error_message; tool message carries an error text).  Returns the updated
`(tool_call_details, tools_used)` lists and the tool-response message. -/
def execute_tool_call (callTool : ToolOracle) (tc : ToolCallSpec)
    (toolCallDetails : List ToolCallRecord) (toolsUsed : List String) :
    List ToolCallRecord × List String × Message :=
  let toolsUsed := toolsUsed ++ [tc.name]
  let outcome := callTool tc.name tc.arguments
  match outcome.1 with
  | .ok res =>
    let resultText := formatToolResult res
    (toolCallDetails ++
      [{ toolName := tc.name, arguments := tc.arguments, success := true,
         executionTimeMs := outcome.2,
         resultPreview := some (resultPreviewOf resultText) }],
     toolsUsed,
     { role := "tool", content := some resultText, toolCallId := some tc.id })
  | .error e =>
    (toolCallDetails ++
      [{ toolName := tc.name, arguments := tc.arguments, success := false,
         executionTimeMs := outcome.2,
         errorMessage := some e }],
     toolsUsed,
     { role := "tool", content := some ("Error calling tool: " ++ e),
       toolCallId := some tc.id })

/-- Mutable state of one trajectory run: the three lists
`run_evals_trajectory` accumulates. -/
structure TrajState where
  messages : List Message
  toolsUsed : List String
  toolCallDetails : List ToolCallRecord
  deriving Repr, DecidableEq

/-- Sequential execution of the requested tool calls inside
`_handle_tool_calls` (core.py lines 136-141). -/
def runToolCalls (callTool : ToolOracle) : List ToolCallSpec → TrajState → TrajState
  | [], st => st
  | tc :: rest, st =>
    let r := execute_tool_call callTool tc st.toolCallDetails st.toolsUsed
    runToolCalls callTool rest
      { messages := st.messages ++ [r.2.2],
        toolsUsed := r.2.1,
        toolCallDetails := r.1 }

/-- Embedding of `_handle_tool_calls` (core.py lines 108-157): append the
assistant message listing the requested calls, execute each call in
order, then request a follow-up completion (without tools); its content
is appended when truthy, an API error is appended as an assistant error
message. -/
def handle_tool_calls (agent : AgentOracle) (callTool : ToolOracle)
    (resp : AgentResponse) (st : TrajState) : TrajState :=
  let st : TrajState :=
    { st with
      messages := st.messages ++
        [{ role := "assistant", content := some (resp.content.getD ""),
           toolCalls := resp.toolCalls.map (fun tc =>
             { tc with typ := some (tc.typ.getD "function") }) }] }
  let st := runToolCalls callTool resp.toolCalls st
  match agent false st.messages with
  | .ok finalResp =>
    match finalResp.content with
    | some c =>
      if c ≠ "" then
        { st with messages := st.messages ++ [{ role := "assistant", content := some c }] }
      else st
    | none => st
  | .error e =>
    { st with messages := st.messages ++
        [{ role := "assistant",
           content := some ("LLM API error in final response: " ++ e) }] }

/-- System prompt of `run_evals_trajectory` (core.py lines 178-179). -/
def trajectorySystemPrompt : String :=
  "You are an assistant with access to MCP (Model Context Protocol) tools. \nUse the available tools to help answer the user\x27s questions. Be thorough and provide helpful responses."

/-- Turn loop of `run_evals_trajectory` (core.py lines 186-222).  A user
turn sends the history to the agent LLM (with tools attached when the
formatted list is non-empty); an API error appends an assistant error
message and breaks out of the loop; tool calls are delegated to
`_handle_tool_calls`; a plain truthy content is appended directly.
Scripted assistant and system turns are appended verbatim. -/
def runTurns (withTools : Bool) (agent : AgentOracle) (callTool : ToolOracle) :
    List ConversationTurn → TrajState → TrajState
  | [], st => st
  | turn :: rest, st =>
    if turn.role = "user" then
      let msgs := st.messages ++ [{ role := "user", content := some turn.content }]
      match agent withTools msgs with
      | .error e =>
        { st with messages := msgs ++
            [{ role := "assistant",
               content := some ("LLM API error during turn: " ++ e) }] }
      | .ok resp =>
        let st :=
          if resp.toolCalls ≠ [] then
            handle_tool_calls agent callTool resp { st with messages := msgs }
          else
            match resp.content with
            | some c =>
              if c ≠ "" then
                { st with messages := msgs ++
                    [{ role := "assistant", content := some c }] }
              else { st with messages := msgs }
            | none => { st with messages := msgs }
        runTurns withTools agent callTool rest st
    else if turn.role = "assistant" then
      runTurns withTools agent callTool rest
        { st with messages := st.messages ++
            [{ role := "assistant", content := some turn.content }] }
    else if turn.role = "system" then
      runTurns withTools agent callTool rest
        { st with messages := st.messages ++
            [{ role := "system", content := some turn.content }] }
    else
      runTurns withTools agent callTool rest st

/-- Embedding of `run_evals_trajectory` (core.py lines 160-229): set up
tools, seed the history with the system prompt, execute the turns, and
return `(conversation_history, tools_used, tool_call_details)`.  The
collaborators never raise outside the handled sites, so the outer
try/except of the source is not reachable in the embedding. -/
def run_evals_trajectory (tools : List ToolInfo) (agent : AgentOracle)
    (callTool : ToolOracle) (turns : List ConversationTurn) :
    List Message × List String × List ToolCallRecord :=
  let formattedTools := setup_tools_from_server tools
  let st := runTurns (!formattedTools.isEmpty) agent callTool turns
    { messages := [{ role := "system", content := some trajectorySystemPrompt }],
      toolsUsed := [], toolCallDetails := [] }
  (st.messages, st.toolsUsed, st.toolCallDetails)

/-- Reversed-history scan of `run_evals` (core.py lines 256-261): the
first assistant message of the reversed history yields its content (the
empty string when the content is None); otherwise the fallback text. -/
def extractResponse : List Message → String
  | [] => "No response generated"
  | m :: rest =>
    if m.role = "assistant" then
      match m.content with
      | some c => c
      | none => ""
    else extractResponse rest

/-- Embedding of `run_evals` (core.py lines 232-261): with no advertised
tools return the fixed text without running any turn; otherwise run the
single-prompt trajectory and extract the final assistant response. -/
def run_evals (tools : List ToolInfo) (agent : AgentOracle)
    (callTool : ToolOracle) (prompt : String) : String :=
  if tools.isEmpty then "No tools available from the MCP server."
  else
    let r := run_evals_trajectory tools agent callTool
      [{ role := "user", content := prompt }]
    extractResponse r.1.reverse

/-- Fence-extraction loop of the graders (core.py lines 362-373 and
498-509): skip until a line stripping to the json fence opener, collect
until a closing fence, drop the rest. -/
def extractJsonLines : List String → Bool → List String
  | [], _ => []
  | l :: ls, inJson =>
    if pyStrip l = "```json" then extractJsonLines ls true
    else if pyStrip l = "```" ∧ inJson then []
    else if inJson then l :: extractJsonLines ls inJson
    else extractJsonLines ls inJson

/-- Markdown cleanup of the graders (core.py lines 360-373 and 496-509):
when the stripped text starts with a json fence, re-join only the
enclosed lines; otherwise the text is left unchanged. -/
def cleanJudgeText (text : String) : String :=
  if pyStartsWith (pyStrip text) "```json" then
    joinNl (extractJsonLines (splitNl (pyStrip text)) false)
  else text

/-- Default pass threshold hardcoded at core.py lines 405 and 532. -/
def defaultThreshold : ℚ := 3

/-- Modelled from the spec: sub-scores of the missing `types.py`
EvaluationResult are bounded 0–5; out-of-range judge scores make the
construction raise, landing in the generic exception path. -/
def scoreValid (q : ℚ) : Bool :=
  decide (0 ≤ q) && decide (q ≤ 5)

/-- Validity of all five judge scores. -/
def scoresValid (ev : JudgeEval) : Bool :=
  scoreValid ev.accuracy && scoreValid ev.completeness && scoreValid ev.relevance &&
    scoreValid ev.clarity && scoreValid ev.reasoning

/-- Stringification of the AttributeError raised when the judge message
content is None and `.strip()` is called on it. -/
def noneContentError : String :=
  "\x27NoneType\x27 object has no attribute \x27strip\x27"

/-- Stringification of the validation error raised when an out-of-range
score reaches the EvaluationResult construction. -/
def validationErrorMsg : String :=
  "validation error for EvaluationResult"

/-- Judge prompt of `grade` (core.py lines 461-485). -/
def gradeEvalPrompt (prompt serverResponse : String) : String :=
  "You are evaluating how well an MCP server answered a user\x27s question.\n\nUser\x27s Question: " ++ prompt ++
  "\n\nMCP Server\x27s Response: " ++ serverResponse ++
  "\n\nPlease evaluate the server\x27s response on the following criteria, scoring each from 1-5:\n\n1. **Accuracy** (1-5): How accurate is the information provided?\n2. **Completeness** (1-5): Does the response fully address the user\x27s question?\n3. **Relevance** (1-5): Is the response relevant to what was asked?\n4. **Clarity** (1-5): Is the response clear and easy to understand?\n5. **Reasoning** (1-5): Does the response show good reasoning and logic?\n\nProvide your evaluation in the following JSON format:\n\x7b\n    \"accuracy\": <score>,\n    \"completeness\": <score>,\n    \"relevance\": <score>,\n    \"clarity\": <score>,\n    \"reasoning\": <score>,\n    \"overall_comments\": \"<brief summary of strengths and weaknesses>\"\n\x7d\n\nOnly respond with the JSON object, no additional text."

/-- Embedding of `grade` (core.py lines 441-565): send the judge prompt,
strip a markdown fence, parse, compute the exact mean of the five
scores, and set passed from the default threshold; decode failures and
other exceptions degrade to the all-ones result. -/
def grade (model : String) (judge : JudgeOracle) (parseEval : ParseOracle)
    (prompt serverResponse : String) (expectedResult : Option String) :
    EvaluationResult :=
  let evalPrompt := gradeEvalPrompt prompt serverResponse
  match judge evalPrompt with
  | .error e =>
    { accuracy := 1, completeness := 1, relevance := 1, clarity := 1,
      reasoning := 1, averageScore := 1,
      overallComments := "Evaluation failed: " ++ e,
      prompt := some prompt, serverResponse := some serverResponse,
      expectedResult := expectedResult, modelUsed := model,
      serverSource := "unknown", error := some e }
  | .ok none =>
    { accuracy := 1, completeness := 1, relevance := 1, clarity := 1,
      reasoning := 1, averageScore := 1,
      overallComments := "Evaluation failed: " ++ noneContentError,
      prompt := some prompt, serverResponse := some serverResponse,
      expectedResult := expectedResult, modelUsed := model,
      serverSource := "unknown", error := some noneContentError }
  | .ok (some text) =>
    match parseEval (cleanJudgeText text) with
    | .decodeError e =>
      { accuracy := 1, completeness := 1, relevance := 1, clarity := 1,
        reasoning := 1, averageScore := 1,
        overallComments := "Failed to parse evaluation response: " ++ e,
        prompt := some prompt, serverResponse := some serverResponse,
        expectedResult := expectedResult, modelUsed := model,
        serverSource := "unknown" }
    | .otherError e =>
      { accuracy := 1, completeness := 1, relevance := 1, clarity := 1,
        reasoning := 1, averageScore := 1,
        overallComments := "Evaluation failed: " ++ e,
        prompt := some prompt, serverResponse := some serverResponse,
        expectedResult := expectedResult, modelUsed := model,
        serverSource := "unknown", error := some e }
    | .ok ev =>
      if scoresValid ev then
        let avg := (ev.accuracy + ev.completeness + ev.relevance +
          ev.clarity + ev.reasoning) / 5
        { accuracy := ev.accuracy, completeness := ev.completeness,
          relevance := ev.relevance, clarity := ev.clarity,
          reasoning := ev.reasoning, averageScore := avg,
          overallComments := ev.overallComments,
          passed := decide (defaultThreshold ≤ avg),
          prompt := some prompt, serverResponse := some serverResponse,
          expectedResult := expectedResult, modelUsed := model,
          serverSource := "unknown" }
      else
        { accuracy := 1, completeness := 1, relevance := 1, clarity := 1,
          reasoning := 1, averageScore := 1,
          overallComments := "Evaluation failed: " ++ validationErrorMsg,
          prompt := some prompt, serverResponse := some serverResponse,
          expectedResult := expectedResult, modelUsed := model,
          serverSource := "unknown", error := some validationErrorMsg }

/-- Message content with the empty-string default used by the summary
builder of `grade_trajectory` (core.py lines 290-294). -/
def contentOrEmpty (m : Message) : String :=
  m.content.getD ""

/-- One block of the conversation summary (core.py line 300). -/
def summaryLine (i : Nat) (p : String × String) : String :=
  "Turn " ++ toString (i + 1) ++ ":\nUser: " ++ p.1 ++ "\nAssistant: " ++ p.2 ++ "\n\n"

/-- Conversation summary of `grade_trajectory` (core.py lines 287-300):
zip the user inputs with the assistant responses and render the turns. -/
def conversationSummary (history : List Message) : String :=
  let userInputs := (history.filter (fun m => m.role = "user")).map contentOrEmpty
  let assistantResponses :=
    (history.filter (fun m => m.role = "assistant")).map contentOrEmpty
  String.join ((userInputs.zip assistantResponses).enum.map
    (fun e => summaryLine e.1 e.2))

/-- Deduplication standing in for the Python `set(...)` iteration at
core.py line 311 (keeps first occurrences; the real set order is
unspecified, affecting only prompt text). -/
def pySetAux : List String → List String → List String
  | [], acc => acc.reverse
  | x :: xs, acc => if x ∈ acc then pySetAux xs acc else pySetAux xs (x :: acc)

/-- Entry point of the set-based deduplication. -/
def pySet (l : List String) : List String :=
  pySetAux l []

/-- Expected-tools section of the trajectory judge prompt (core.py lines
303-314), empty unless some turn carries a non-empty expected_tools. -/
def expectedToolsCheck (turns : List ConversationTurn) (toolsUsed : List String) : String :=
  if turns.any (fun t => !(t.expectedTools.getD []).isEmpty) then
    let allExpected := turns.foldl
      (fun acc t =>
        if (t.expectedTools.getD []).isEmpty then acc
        else acc ++ t.expectedTools.getD []) []
    if !allExpected.isEmpty then
      "\nExpected tools: " ++ String.intercalate ", " (pySet allExpected) ++
      "\nActual tools used: " ++
      (if toolsUsed.isEmpty then "None" else String.intercalate ", " toolsUsed)
    else ""
  else ""

/-- Judge prompt of `grade_trajectory` (core.py lines 316-349). -/
def trajectoryEvalPrompt (history : List Message) (turns : List ConversationTurn)
    (toolsUsed : List String) (expectedResult : Option String) : String :=
  "You are evaluating how well an MCP server performed across a multi-turn conversation trajectory.\n\nConversation Summary:\n" ++
  conversationSummary history ++
  "\n\n" ++ expectedToolsCheck turns toolsUsed ++ "\n\n" ++
  (match expectedResult with
   | some er => if er ≠ "" then "Expected Outcome: " ++ er else ""
   | none => "") ++
  "\n\nPlease evaluate the server\x27s performance on the following criteria, scoring each from 1-5:\n\n1. **Accuracy** (1-5): How accurate was the information provided across all turns?\n2. **Completeness** (1-5): Did the server fully address all user requests in the conversation?\n3. **Relevance** (1-5): Were the responses relevant to the conversation flow?\n4. **Clarity** (1-5): Were the responses clear and easy to understand throughout?\n5. **Reasoning** (1-5): Did the server show good reasoning and appropriate tool usage?\n\nConsider:\n- Tool usage appropriateness and effectiveness\n- Conversation flow and coherence\n- Achievement of the overall objective\n- Handling of multi-step scenarios\n\nProvide your evaluation in the following JSON format:\n\x7b\n    \"accuracy\": <score>,\n    \"completeness\": <score>,\n    \"relevance\": <score>,\n    \"clarity\": <score>,\n    \"reasoning\": <score>,\n    \"overall_comments\": \"<brief summary of strengths and weaknesses>\"\n\x7d\n\nOnly respond with the JSON object, no additional text."

/-- Sum of the recorded execution times (core.py lines 388 and 677-679). -/
def totalExecTime (details : List ToolCallRecord) : ℚ :=
  details.foldl (fun a c => a + c.executionTimeMs) 0

/-- Count of records with success = false (core.py lines 391 and 680-682). -/
def countFailedCalls (details : List ToolCallRecord) : Nat :=
  (details.filter (fun c => !c.success)).length

/-- Embedding of `grade_trajectory` (core.py lines 264-438): build the
summary prompt, call the judge, strip a markdown fence, parse, compute
the exact mean and default-threshold pass flag, and merge the trajectory
metadata; decode failures and other exceptions degrade to the all-ones
result without tool detail fields. -/
def grade_trajectory (model : String) (judge : JudgeOracle) (parseEval : ParseOracle)
    (conversationHistory : List Message) (turns : List ConversationTurn)
    (toolsUsed : List String) (toolCallDetails : List ToolCallRecord)
    (expectedResult : Option String) : EvaluationResult :=
  let evalPrompt := trajectoryEvalPrompt conversationHistory turns toolsUsed expectedResult
  match judge evalPrompt with
  | .error e =>
    { accuracy := 1, completeness := 1, relevance := 1, clarity := 1,
      reasoning := 1, averageScore := 1,
      overallComments := "Evaluation failed: " ++ e,
      conversationHistory := conversationHistory, toolsUsed := toolsUsed,
      expectedResult := expectedResult, modelUsed := model,
      serverSource := "unknown", error := some e }
  | .ok none =>
    { accuracy := 1, completeness := 1, relevance := 1, clarity := 1,
      reasoning := 1, averageScore := 1,
      overallComments := "Evaluation failed: " ++ noneContentError,
      conversationHistory := conversationHistory, toolsUsed := toolsUsed,
      expectedResult := expectedResult, modelUsed := model,
      serverSource := "unknown", error := some noneContentError }
  | .ok (some text) =>
    match parseEval (cleanJudgeText text) with
    | .decodeError e =>
      { accuracy := 1, completeness := 1, relevance := 1, clarity := 1,
        reasoning := 1, averageScore := 1,
        overallComments := "Failed to parse evaluation response: " ++ e,
        conversationHistory := conversationHistory, toolsUsed := toolsUsed,
        expectedResult := expectedResult, modelUsed := model,
        serverSource := "unknown" }
    | .otherError e =>
      { accuracy := 1, completeness := 1, relevance := 1, clarity := 1,
        reasoning := 1, averageScore := 1,
        overallComments := "Evaluation failed: " ++ e,
        conversationHistory := conversationHistory, toolsUsed := toolsUsed,
        expectedResult := expectedResult, modelUsed := model,
        serverSource := "unknown", error := some e }
    | .ok ev =>
      if scoresValid ev then
        let avg := (ev.accuracy + ev.completeness + ev.relevance +
          ev.clarity + ev.reasoning) / 5
        { accuracy := ev.accuracy, completeness := ev.completeness,
          relevance := ev.relevance, clarity := ev.clarity,
          reasoning := ev.reasoning, averageScore := avg,
          overallComments := ev.overallComments,
          passed := decide (defaultThreshold ≤ avg),
          conversationHistory := conversationHistory, toolsUsed := toolsUsed,
          expectedResult := expectedResult, modelUsed := model,
          serverSource := "unknown",
          totalExecutionTimeMs := totalExecTime toolCallDetails,
          failedToolCalls := countFailedCalls toolCallDetails,
          toolCallDetails := toolCallDetails }
      else
        { accuracy := 1, completeness := 1, relevance := 1, clarity := 1,
          reasoning := 1, averageScore := 1,
          overallComments := "Evaluation failed: " ++ validationErrorMsg,
          conversationHistory := conversationHistory, toolsUsed := toolsUsed,
          expectedResult := expectedResult, modelUsed := model,
          serverSource := "unknown", error := some validationErrorMsg }

/-- Established session with the tool-providing server: the advertised
tools plus the collaborator oracles reachable through it. -/
structure MCPSession where
  tools : List ToolInfo
  agent : AgentOracle
  callTool : ToolOracle

/-- Embedding of `evaluate_mcp_server_trajectory` (core.py lines
578-631).  The `Except` argument is the outcome of creating and entering
the client session; its failure short-circuits into the degraded result.
The Bool of the returned pair records whether judge grading was
attempted. -/
def evaluate_mcp_server_trajectory (conn : Except String MCPSession)
    (judge : JudgeOracle) (parseEval : ParseOracle)
    (turns : List ConversationTurn) (model : String)
    (expectedResult : Option String) (serverSource : String) :
    EvaluationResult × Bool :=
  match conn with
  | .ok sess =>
    let r := run_evals_trajectory sess.tools sess.agent sess.callTool turns
    let ev := grade_trajectory model judge parseEval r.1 turns r.2.1 r.2.2 expectedResult
    ({ ev with serverSource := serverSource }, true)
  | .error e =>
    let errorMessage := "Server connection/trajectory evaluation failed: " ++ e ++
      (if strContains e "Could not infer a valid transport" then
        " (server_source: " ++ serverSource ++ ")"
      else "")
    ({ accuracy := 1, completeness := 1, relevance := 1, clarity := 1,
       reasoning := 1, averageScore := 1,
       overallComments := errorMessage, passed := false,
       expectedResult := expectedResult, modelUsed := model,
       serverSource := serverSource, error := some e }, false)

/-- Embedding of `evaluate_mcp_server` (core.py lines 634-707): run the
single-prompt trajectory, grade the last message content, then merge the
tool call metadata; a session failure short-circuits into the degraded
result.  The Bool of the returned pair records whether judge grading was
attempted. -/
def evaluate_mcp_server (conn : Except String MCPSession)
    (judge : JudgeOracle) (parseEval : ParseOracle)
    (prompt : String) (model : String)
    (expectedResult : Option String) (serverSource : String) :
    EvaluationResult × Bool :=
  match conn with
  | .ok sess =>
    let r := run_evals_trajectory sess.tools sess.agent sess.callTool
      [{ role := "user", content := prompt }]
    let serverResp :=
      match r.1.getLast? with
      | some m => m.content.getD ""
      | none => ""
    let ev := grade model judge parseEval prompt serverResp expectedResult
    ({ ev with
       toolsUsed := r.2.1, conversationHistory := r.1,
       toolCallDetails := r.2.2,
       totalExecutionTimeMs := totalExecTime r.2.2,
       failedToolCalls := countFailedCalls r.2.2,
       serverSource := serverSource }, true)
  | .error e =>
    let errorMessage := "Server connection/evaluation failed: " ++ e ++
      (if strContains e "Could not infer a valid transport" then
        " (server_source: " ++ serverSource ++ ")"
      else "")
    ({ accuracy := 1, completeness := 1, relevance := 1, clarity := 1,
       reasoning := 1, averageScore := 1,
       overallComments := errorMessage, passed := false,
       prompt := some prompt, serverResponse := some "",
       expectedResult := expectedResult, modelUsed := model,
       serverSource := serverSource, error := some e }, false)

/-- Spec-side predicate: no recorded turn-validation metadata in the
history carries tools_match = false. -/
def noMismatchRecorded (history : List Message) : Bool :=
  history.all (fun m =>
    match m.turnMetadata with
    | none => true
    | some meta => meta.toolsMatch)

/-- The tool-response message built by `_execute_tool_call` carries no
turn-validation metadata. -/
lemma execute_tool_call_meta (ct : ToolOracle) (tc : ToolCallSpec)
    (d : List ToolCallRecord) (u : List String) :
    (execute_tool_call ct tc d u).2.2.turnMetadata = none := by
  rcases h : (ct tc.name tc.arguments).1 with res | e <;>
    simp [execute_tool_call, h]

/-- Tool-call execution preserves the absence of turn metadata. -/
lemma runToolCalls_meta (ct : ToolOracle) :
    ∀ (tcs : List ToolCallSpec) (st : TrajState),
      (∀ m ∈ st.messages, m.turnMetadata = none) →
      ∀ m ∈ (runToolCalls ct tcs st).messages, m.turnMetadata = none := by
  intro tcs
  induction tcs with
  | nil => intro st h; simpa [runToolCalls] using h
  | cons tc rest ih =>
    intro st h
    rw [runToolCalls]
    apply ih
    intro m hm
    rcases List.mem_append.mp hm with hm | hm
    · exact h m hm
    · rcases List.mem_singleton.mp hm with rfl
      exact execute_tool_call_meta ct tc st.toolCallDetails st.toolsUsed

/-- The tool-call handler appends only metadata-free messages. -/
lemma handle_tool_calls_meta (agent : AgentOracle) (ct : ToolOracle)
    (resp : AgentResponse) (st : TrajState)
    (h : ∀ m ∈ st.messages, m.turnMetadata = none) :
    ∀ m ∈ (handle_tool_calls agent ct resp st).messages, m.turnMetadata = none := by
  unfold handle_tool_calls
  have hst : ∀ m ∈ (runToolCalls ct resp.toolCalls
      { st with messages := st.messages ++
        [{ role := "assistant", content := some (resp.content.getD ""),
           toolCalls := resp.toolCalls.map (fun tc =>
             { tc with typ := some (tc.typ.getD "function") }) }] }).messages,
      m.turnMetadata = none := by
    apply runToolCalls_meta
    intro m hm
    rcases List.mem_append.mp hm with hm | hm
    · exact h m hm
    · rcases List.mem_singleton.mp hm with rfl
      rfl
  cases hagent : agent false (runToolCalls ct resp.toolCalls
      { st with messages := st.messages ++
        [{ role := "assistant", content := some (resp.content.getD ""),
           toolCalls := resp.toolCalls.map (fun tc =>
             { tc with typ := some (tc.typ.getD "function") }) }] }).messages with
  | ok finalResp =>
    cases hc : finalResp.content with
    | some c =>
      by_cases hne : c ≠ ""
      · simp only [hagent, hc, if_pos hne]
        intro m hm
        rcases List.mem_append.mp hm with hm | hm
        · exact hst m hm
        · rcases List.mem_singleton.mp hm with rfl
          rfl
      · simp only [hagent, hc, if_neg hne]
        exact hst
    | none =>
      simp only [hagent, hc]
      exact hst
  | error e =>
    simp only [hagent]
    intro m hm
    rcases List.mem_append.mp hm with hm | hm
    · exact hst m hm
    · rcases List.mem_singleton.mp hm with rfl
      rfl

/-- Appending one metadata-free message preserves the invariant. -/
lemma allMeta_append (msgs : List Message) (msg : Message)
    (h : ∀ m ∈ msgs, m.turnMetadata = none) (hmsg : msg.turnMetadata = none) :
    ∀ m ∈ msgs ++ [msg], m.turnMetadata = none := by
  intro m hm
  rcases List.mem_append.mp hm with hm | hm
  · exact h m hm
  · rcases List.mem_singleton.mp hm with rfl
    exact hmsg

/-- The turn loop of `run_evals_trajectory` appends only messages without
turn-validation metadata. -/
lemma runTurns_meta (wt : Bool) (agent : AgentOracle) (ct : ToolOracle) :
    ∀ (turns : List ConversationTurn) (st : TrajState),
      (∀ m ∈ st.messages, m.turnMetadata = none) →
      ∀ m ∈ (runTurns wt agent ct turns st).messages, m.turnMetadata = none := by
  intro turns
  induction turns with
  | nil => intro st h; simpa [runTurns] using h
  | cons turn rest ih =>
    intro st h
    rw [runTurns]
    by_cases hu : turn.role = "user"
    · simp only [if_pos hu]
      have husr : ∀ m ∈ st.messages ++
          [({ role := "user", content := some turn.content } : Message)],
          m.turnMetadata = none :=
        allMeta_append st.messages _ h rfl
      cases hagent : agent wt (st.messages ++
          [{ role := "user", content := some turn.content }]) with
      | error e =>
        simp only [hagent]
        exact allMeta_append _ _ husr rfl
      | ok resp =>
        simp only [hagent]
        apply ih
        split
        · exact handle_tool_calls_meta agent ct resp _ husr
        · split
          · split
            · exact allMeta_append _ _ husr rfl
            · exact husr
          · exact husr
    · simp only [if_neg hu]
      by_cases ha : turn.role = "assistant"
      · simp only [if_pos ha]
        exact ih _ (allMeta_append _ _ h rfl)
      · simp only [if_neg ha]
        by_cases hs : turn.role = "system"
        · simp only [if_pos hs]
          exact ih _ (allMeta_append _ _ h rfl)
        · simp only [if_neg hs]
          exact ih _ h

/-- The conversation history produced by `run_evals_trajectory` carries no
turn-validation metadata on any message. -/
lemma run_evals_trajectory_meta (tools : List ToolInfo) (agent : AgentOracle)
    (ct : ToolOracle) (turns : List ConversationTurn) :
    ∀ m ∈ (run_evals_trajectory tools agent ct turns).1, m.turnMetadata = none := by
  unfold run_evals_trajectory
  apply runTurns_meta
  intro m hm
  rcases List.mem_singleton.mp hm with rfl
  rfl

/-- Metadata-free histories trivially record no mismatch. -/
lemma noMismatch_of_meta (msgs : List Message)
    (h : ∀ m ∈ msgs, m.turnMetadata = none) :
    noMismatchRecorded msgs = true := by
  unfold noMismatchRecorded
  rw [List.all_eq_true]
  intro m hm
  rw [h m hm]

/-- C1: the claim states that a turn with tools_match == false makes
`grade_trajectory` skip the judge and return the all-ones result whose
comments contain "TOOL VALIDATION FAILED".  On the failing input of the
repository's own unit test (history carrying `_turn_metadata` with
tools_match = false for expected [tool_a] vs actual [wrong_tool]), the
code instead consults the judge and returns its scores: passed = true,
average_score = 4, and the marker is absent from the comments; a failing
judge call further shows that the judge is invoked on that input. -/
theorem c1_validation_gate_not_implemented :
    (let r := grade_trajectory "gpt-4"
      (fun _ => Except.ok (some "JUDGE"))
      (fun s => if s = "JUDGE" then JsonOutcome.ok ⟨4, 4, 4, 4, 4, "ok"⟩
        else JsonOutcome.decodeError "bad")
      [{ role := "system", content := some "System prompt" },
       { role := "user", content := some "Step 1" },
       { role := "assistant", content := some "Response 1",
         turnMetadata := some ⟨0, ["tool_a"], ["wrong_tool"], false⟩ }]
      [{ role := "user", content := "Step 1", expectedTools := some ["tool_a"] },
       { role := "user", content := "Step 2", expectedTools := some ["tool_b"] }]
      ["wrong_tool"] [] none
    r.passed = true ∧ r.averageScore = 4 ∧
      strContains r.overallComments "TOOL VALIDATION FAILED" = false ∧
      strContains r.overallComments "Expected [tool_a] but got [wrong_tool]" = false) ∧
    (grade_trajectory "gpt-4" (fun _ => Except.error "judge boom")
      (fun _ => JsonOutcome.decodeError "bad")
      [{ role := "assistant", content := some "Response 1",
         turnMetadata := some ⟨0, ["tool_a"], ["wrong_tool"], false⟩ }]
      [{ role := "user", content := "Step 1", expectedTools := some ["tool_a"] }]
      ["wrong_tool"] [] none).overallComments = "Evaluation failed: judge boom" := by
  have h : grade_trajectory "gpt-4"
      (fun _ => Except.ok (some "JUDGE"))
      (fun s => if s = "JUDGE" then JsonOutcome.ok ⟨4, 4, 4, 4, 4, "ok"⟩
        else JsonOutcome.decodeError "bad")
      [{ role := "system", content := some "System prompt" },
       { role := "user", content := some "Step 1" },
       { role := "assistant", content := some "Response 1",
         turnMetadata := some ⟨0, ["tool_a"], ["wrong_tool"], false⟩ }]
      [{ role := "user", content := "Step 1", expectedTools := some ["tool_a"] },
       { role := "user", content := "Step 2", expectedTools := some ["tool_b"] }]
      ["wrong_tool"] [] none =
      { accuracy := 4, completeness := 4, relevance := 4, clarity := 4,
        reasoning := 4, averageScore := ((4 : ℚ) + 4 + 4 + 4 + 4) / 5,
        overallComments := "ok",
        passed := decide (defaultThreshold ≤ ((4 : ℚ) + 4 + 4 + 4 + 4) / 5),
        conversationHistory :=
          [{ role := "system", content := some "System prompt" },
           { role := "user", content := some "Step 1" },
           { role := "assistant", content := some "Response 1",
             turnMetadata := some ⟨0, ["tool_a"], ["wrong_tool"], false⟩ }],
        toolsUsed := ["wrong_tool"],
        expectedResult := none, modelUsed := "gpt-4", serverSource := "unknown",
        totalExecutionTimeMs := totalExecTime [],
        failedToolCalls := countFailedCalls [],
        toolCallDetails := [] } := rfl
  refine ⟨?_, ?_⟩
  · simp only [h]
    refine ⟨?_, ?_, ?_, ?_⟩
    · norm_num [defaultThreshold]
    · norm_num
    · decide
    · decide
  · rfl

/-- C2: the claim states that a tool call naming a tool outside the
advertised set is not attempted, is recorded with success = false and
hallucinated = true, and is never appended to tools_used.  The code has
no advertised-set parameter at all: on the unit test's failing input
(tool "nonexistent_tool") the name is appended to tools_used before any
check, the call is attempted (its oracle outcome decides the record),
and no record ever carries a hallucinated key. -/
theorem c2_hallucination_not_detected :
    (let r := execute_tool_call
      (fun _ _ => (Except.ok (ToolResultRep.dataField "tool result"), 2))
      ⟨"call_123", some "function", "nonexistent_tool", "ARGS"⟩ [] []
    r.2.1 = ["nonexistent_tool"] ∧
      r.1 = [{ toolName := "nonexistent_tool", arguments := "ARGS", success := true,
               executionTimeMs := 2, resultPreview := some "tool result" }] ∧
      r.2.2.content = some "tool result") ∧
    (execute_tool_call (fun _ _ => (Except.error "boom", 3))
      ⟨"call_123", some "function", "nonexistent_tool", "ARGS"⟩ [] []).1 =
      [{ toolName := "nonexistent_tool", arguments := "ARGS", success := false,
         executionTimeMs := 3, errorMessage := some "boom" }] := by
  decide

/-- C5: the claim states that after each user turn involving tool calls
the executor records turn-validation metadata (turn_index,
expected_tools, actual_tools, tools_match).  On a concrete trajectory in
which the agent calls wrong_tool against an expectation of tool_a, the
code executes the tool call yet appends every message without any
`_turn_metadata` key. -/
theorem c5_turn_metadata_not_recorded :
    (let r := run_evals_trajectory [⟨"tool_a", "", ""⟩, ⟨"wrong_tool", "", ""⟩]
      (fun _ msgs =>
        if msgs.any (fun m => m.role = "tool") then Except.ok ⟨some "final answer", []⟩
        else Except.ok ⟨some "", [⟨"id1", some "function", "wrong_tool", "ARGS"⟩]⟩)
      (fun _ _ => (Except.ok (ToolResultRep.dataField "res"), 5))
      [{ role := "user", content := "Step 1", expectedTools := some ["tool_a"] }]
    r.2.1 = ["wrong_tool"] ∧
      r.2.2.length = 1 ∧
      r.1.all (fun m => m.turnMetadata = none) = true) := by
  decide

/-- Concrete threshold fact shared by the degraded branches. -/
lemma decide_threshold_le_one : decide (defaultThreshold ≤ (1 : ℚ)) = false := by
  norm_num [defaultThreshold]

/-- The all-ones degraded score is the mean of five ones. -/
lemma one_eq_mean_ones : (1 : ℚ) = ((1 : ℚ) + 1 + 1 + 1 + 1) / 5 := by
  norm_num

/-- Field characterization of `grade`: on every path the history is
empty, passed equals the default-threshold test on the average, and the
average is the exact mean of the five sub-scores. -/
lemma grade_fields (model : String) (judge : JudgeOracle) (parseEval : ParseOracle)
    (prompt srvResp : String) (er : Option String) :
    (grade model judge parseEval prompt srvResp er).conversationHistory = [] ∧
    (grade model judge parseEval prompt srvResp er).passed =
      decide (defaultThreshold ≤ (grade model judge parseEval prompt srvResp er).averageScore) ∧
    (grade model judge parseEval prompt srvResp er).averageScore =
      ((grade model judge parseEval prompt srvResp er).accuracy +
       (grade model judge parseEval prompt srvResp er).completeness +
       (grade model judge parseEval prompt srvResp er).relevance +
       (grade model judge parseEval prompt srvResp er).clarity +
       (grade model judge parseEval prompt srvResp er).reasoning) / 5 := by
  rcases hj : judge (gradeEvalPrompt prompt srvResp) with e | co
  · simp only [grade, hj]
    all_goals refine ⟨?_, ?_, ?_⟩
    all_goals first
      | trivial
      | rfl
      | exact decide_threshold_le_one.symm
      | exact one_eq_mean_ones
  · rcases co with _ | text
    · simp only [grade, hj]
      all_goals refine ⟨?_, ?_, ?_⟩
      all_goals first
        | trivial
        | rfl
        | exact decide_threshold_le_one.symm
        | exact one_eq_mean_ones
    · rcases hp : parseEval (cleanJudgeText text) with ev | e | e
      · by_cases hv : scoresValid ev = true
        · simp only [grade, hj, hp, hv, if_true]
          all_goals refine ⟨?_, ?_, ?_⟩
          all_goals first
            | trivial
            | rfl
            | exact decide_threshold_le_one.symm
            | exact one_eq_mean_ones
        · simp only [grade, hj, hp]
          rw [if_neg hv]
          all_goals refine ⟨?_, ?_, ?_⟩
          all_goals first
            | trivial
            | rfl
            | exact decide_threshold_le_one.symm
            | exact one_eq_mean_ones
      · simp only [grade, hj, hp]
        all_goals refine ⟨?_, ?_, ?_⟩
        all_goals first
          | trivial
          | rfl
          | exact decide_threshold_le_one.symm
          | exact one_eq_mean_ones
      · simp only [grade, hj, hp]
        all_goals refine ⟨?_, ?_, ?_⟩
        all_goals first
          | trivial
          | rfl
          | exact decide_threshold_le_one.symm
          | exact one_eq_mean_ones

/-- Field characterization of `grade_trajectory`: on every path the
history is the given one, passed equals the default-threshold test on
the average, and the average is the exact mean of the five sub-scores. -/
lemma grade_trajectory_fields (model : String) (judge : JudgeOracle)
    (parseEval : ParseOracle) (hist : List Message) (turns : List ConversationTurn)
    (used : List String) (details : List ToolCallRecord) (er : Option String) :
    (grade_trajectory model judge parseEval hist turns used details er).conversationHistory = hist ∧
    (grade_trajectory model judge parseEval hist turns used details er).passed =
      decide (defaultThreshold ≤
        (grade_trajectory model judge parseEval hist turns used details er).averageScore) ∧
    (grade_trajectory model judge parseEval hist turns used details er).averageScore =
      ((grade_trajectory model judge parseEval hist turns used details er).accuracy +
       (grade_trajectory model judge parseEval hist turns used details er).completeness +
       (grade_trajectory model judge parseEval hist turns used details er).relevance +
       (grade_trajectory model judge parseEval hist turns used details er).clarity +
       (grade_trajectory model judge parseEval hist turns used details er).reasoning) / 5 := by
  rcases hj : judge (trajectoryEvalPrompt hist turns used er) with e | co
  · simp only [grade_trajectory, hj]
    all_goals refine ⟨?_, ?_, ?_⟩
    all_goals first
      | trivial
      | rfl
      | exact decide_threshold_le_one.symm
      | exact one_eq_mean_ones
  · rcases co with _ | text
    · simp only [grade_trajectory, hj]
      all_goals refine ⟨?_, ?_, ?_⟩
      all_goals first
        | trivial
        | rfl
        | exact decide_threshold_le_one.symm
        | exact one_eq_mean_ones
    · rcases hp : parseEval (cleanJudgeText text) with ev | e | e
      · by_cases hv : scoresValid ev = true
        · simp only [grade_trajectory, hj, hp, hv, if_true]
          all_goals refine ⟨?_, ?_, ?_⟩
          all_goals first
            | trivial
            | rfl
            | exact decide_threshold_le_one.symm
            | exact one_eq_mean_ones
        · simp only [grade_trajectory, hj, hp]
          rw [if_neg hv]
          all_goals refine ⟨?_, ?_, ?_⟩
          all_goals first
            | trivial
            | rfl
            | exact decide_threshold_le_one.symm
            | exact one_eq_mean_ones
      · simp only [grade_trajectory, hj, hp]
        all_goals refine ⟨?_, ?_, ?_⟩
        all_goals first
          | trivial
          | rfl
          | exact decide_threshold_le_one.symm
          | exact one_eq_mean_ones
      · simp only [grade_trajectory, hj, hp]
        all_goals refine ⟨?_, ?_, ?_⟩
        all_goals first
          | trivial
          | rfl
          | exact decide_threshold_le_one.symm
          | exact one_eq_mean_ones

/-- Spec-side predicate of §8: the average equals the exact mean of the
five sub-scores. -/
def averageIsMean (r : EvaluationResult) : Prop :=
  r.averageScore = (r.accuracy + r.completeness + r.relevance + r.clarity + r.reasoning) / 5

/-- Spec-side predicate of §8: passed holds exactly when the average
reaches the default threshold and no recorded turn-validation mismatch
exists in the result's history. -/
def passedConsistent (r : EvaluationResult) : Prop :=
  r.passed = (decide (defaultThreshold ≤ r.averageScore) &&
    noMismatchRecorded r.conversationHistory)

/-- C4: every EvaluationResult produced by either grading mode — on the
judge success path and on every degraded path, including the
connection-failure results of the two evaluate wrappers — has
average_score exactly equal to the plain arithmetic mean of the five
sub-scores accuracy, completeness, relevance, clarity and reasoning. -/
theorem c4_average_is_mean_of_subscores
    (conn : Except String MCPSession) (judge : JudgeOracle) (parseEval : ParseOracle)
    (turns : List ConversationTurn) (model : String) (er : Option String)
    (serverSource prompt srvResp : String) (hist : List Message)
    (used : List String) (details : List ToolCallRecord) :
    averageIsMean (grade model judge parseEval prompt srvResp er) ∧
    averageIsMean (grade_trajectory model judge parseEval hist turns used details er) ∧
    averageIsMean ((evaluate_mcp_server_trajectory conn judge parseEval turns model er
      serverSource).1) ∧
    averageIsMean ((evaluate_mcp_server conn judge parseEval prompt model er
      serverSource).1) := by
  refine ⟨(grade_fields model judge parseEval prompt srvResp er).2.2,
    (grade_trajectory_fields model judge parseEval hist turns used details er).2.2, ?_, ?_⟩
  · rcases conn with e | sess
    · simp only [evaluate_mcp_server_trajectory, averageIsMean]
      exact one_eq_mean_ones
    · simp only [evaluate_mcp_server_trajectory, averageIsMean]
      exact (grade_trajectory_fields model judge parseEval _ turns _ _ er).2.2
  · rcases conn with e | sess
    · simp only [evaluate_mcp_server, averageIsMean]
      exact one_eq_mean_ones
    · simp only [evaluate_mcp_server, averageIsMean]
      exact (grade_fields model judge parseEval prompt _ er).2.2

/-- C3: for every EvaluationResult the pipeline produces — through the
single-prompt grading mode or through the two evaluate wrappers, on
success and on every degraded path — passed is true exactly when
average_score reaches the hardcoded default threshold 3.0 and the
result's history records no turn-validation mismatch (the embedded code
never records any mismatch, so the second conjunct is always true). -/
theorem c3_passed_iff_threshold_and_no_mismatch
    (conn : Except String MCPSession) (judge : JudgeOracle) (parseEval : ParseOracle)
    (turns : List ConversationTurn) (model : String) (er : Option String)
    (serverSource prompt srvResp : String) :
    passedConsistent (grade model judge parseEval prompt srvResp er) ∧
    passedConsistent ((evaluate_mcp_server_trajectory conn judge parseEval turns model er
      serverSource).1) ∧
    passedConsistent ((evaluate_mcp_server conn judge parseEval prompt model er
      serverSource).1) := by
  refine ⟨?_, ?_, ?_⟩
  · obtain ⟨hh, hp, _⟩ := grade_fields model judge parseEval prompt srvResp er
    unfold passedConsistent
    rw [hp, hh]
    simp [noMismatchRecorded]
  · rcases conn with e | sess
    · simp [passedConsistent, evaluate_mcp_server_trajectory, noMismatchRecorded,
        decide_threshold_le_one]
    · have hmeta := noMismatch_of_meta _
        (run_evals_trajectory_meta sess.tools sess.agent sess.callTool turns)
      obtain ⟨hh, hp, _⟩ := grade_trajectory_fields model judge parseEval
        (run_evals_trajectory sess.tools sess.agent sess.callTool turns).1 turns
        (run_evals_trajectory sess.tools sess.agent sess.callTool turns).2.1
        (run_evals_trajectory sess.tools sess.agent sess.callTool turns).2.2 er
      unfold passedConsistent
      simp only [evaluate_mcp_server_trajectory]
      rw [hp, hh, hmeta, Bool.and_true]
  · rcases conn with e | sess
    · simp [passedConsistent, evaluate_mcp_server, noMismatchRecorded,
        decide_threshold_le_one]
    · have hmeta := noMismatch_of_meta _
        (run_evals_trajectory_meta sess.tools sess.agent sess.callTool
          [{ role := "user", content := prompt }])
      obtain ⟨_, hp, _⟩ := grade_fields model judge parseEval prompt
        (match (run_evals_trajectory sess.tools sess.agent sess.callTool
          [{ role := "user", content := prompt }]).1.getLast? with
         | some m => m.content.getD ""
         | none => "") er
      unfold passedConsistent
      simp only [evaluate_mcp_server]
      rw [hp, hmeta, Bool.and_true]

/-- Inside a fence, the extraction loop collects exactly the lines up to
the closing fence when none of them strips to a fence marker. -/
lemma extractJsonLines_body (ls : List String)
    (h : ∀ l ∈ ls, pyStrip l ≠ "```json" ∧ pyStrip l ≠ "```") :
    extractJsonLines (ls ++ ["```"]) true = ls := by
  induction ls with
  | nil => decide
  | cons l rest ih =>
    have h1 := (h l (List.mem_cons_self l rest)).1
    have h2 := (h l (List.mem_cons_self l rest)).2
    rw [List.cons_append, extractJsonLines, if_neg h1,
      if_neg (fun hc => h2 hc.1), if_pos rfl]
    exact congrArg (l :: ·) (ih fun x hx => h x (List.mem_cons_of_mem l hx))

/-- Markdown cleanup on a fenced text whose stripped lines are an opening
json fence, a marker-free body, and a closing fence extracts exactly the
body joined by newlines. -/
lemma cleanJudgeText_fence (text : String) (bodyLines : List String)
    (h1 : pyStartsWith (pyStrip text) "```json" = true)
    (h2 : splitNl (pyStrip text) = "```json" :: (bodyLines ++ ["```"]))
    (h3 : ∀ l ∈ bodyLines, pyStrip l ≠ "```json" ∧ pyStrip l ≠ "```") :
    cleanJudgeText text = joinNl bodyLines := by
  unfold cleanJudgeText
  rw [if_pos h1, h2, extractJsonLines,
    if_pos (by decide : pyStrip "```json" = "```json"),
    extractJsonLines_body bodyLines h3]

/-- C6: a judge response that is a markdown code fence labeled json
around a marker-free body has the fence stripped and exactly the
enclosed lines handed to the JSON parser; when the parsed scores are all
4, both grading modes produce average_score = 4 and passed = true. -/
theorem c6_json_fence_parsed (model text : String) (bodyLines : List String)
    (parseEval : ParseOracle) (c : String) (prompt srvResp : String)
    (er : Option String) (hist : List Message) (turns : List ConversationTurn)
    (used : List String) (details : List ToolCallRecord)
    (h1 : pyStartsWith (pyStrip text) "```json" = true)
    (h2 : splitNl (pyStrip text) = "```json" :: (bodyLines ++ ["```"]))
    (h3 : ∀ l ∈ bodyLines, pyStrip l ≠ "```json" ∧ pyStrip l ≠ "```")
    (h4 : parseEval (joinNl bodyLines) = JsonOutcome.ok ⟨4, 4, 4, 4, 4, c⟩) :
    cleanJudgeText text = joinNl bodyLines ∧
    (grade model (fun _ => Except.ok (some text)) parseEval prompt srvResp
      er).averageScore = 4 ∧
    (grade model (fun _ => Except.ok (some text)) parseEval prompt srvResp
      er).passed = true ∧
    (grade_trajectory model (fun _ => Except.ok (some text)) parseEval hist turns
      used details er).averageScore = 4 ∧
    (grade_trajectory model (fun _ => Except.ok (some text)) parseEval hist turns
      used details er).passed = true := by
  have hclean := cleanJudgeText_fence text bodyLines h1 h2 h3
  have hparse : parseEval (cleanJudgeText text) = JsonOutcome.ok ⟨4, 4, 4, 4, 4, c⟩ := by
    rw [hclean]; exact h4
  have hv : scoresValid ⟨4, 4, 4, 4, 4, c⟩ = true := rfl
  refine ⟨hclean, ?_, ?_, ?_, ?_⟩
  · simp only [grade, hparse, hv, if_true]
    norm_num
  · simp only [grade, hparse, hv, if_true]
    norm_num [defaultThreshold]
  · simp only [grade_trajectory, hparse, hv, if_true]
    norm_num
  · simp only [grade_trajectory, hparse, hv, if_true]
    norm_num [defaultThreshold]

/-- Witness for C6 at the concrete fenced text of the unit tests. -/
theorem c6_json_fence_parsed_witness :
    (pyStartsWith (pyStrip "```json\nBODY\n```") "```json" = true) ∧
    (splitNl (pyStrip "```json\nBODY\n```") = "```json" :: (["BODY"] ++ ["```"])) ∧
    (∀ l ∈ ["BODY"], pyStrip l ≠ "```json" ∧ pyStrip l ≠ "```") ∧
    ((fun s => if s = "BODY" then JsonOutcome.ok ⟨4, 4, 4, 4, 4, "Good performance"⟩
      else JsonOutcome.decodeError "bad") (joinNl ["BODY"]) =
      JsonOutcome.ok ⟨4, 4, 4, 4, 4, "Good performance"⟩) ∧
    (cleanJudgeText "```json\nBODY\n```" = joinNl ["BODY"] ∧
     (grade "gpt-4" (fun _ => Except.ok (some "```json\nBODY\n```"))
       (fun s => if s = "BODY" then JsonOutcome.ok ⟨4, 4, 4, 4, 4, "Good performance"⟩
         else JsonOutcome.decodeError "bad") "p" "r" none).averageScore = 4 ∧
     (grade "gpt-4" (fun _ => Except.ok (some "```json\nBODY\n```"))
       (fun s => if s = "BODY" then JsonOutcome.ok ⟨4, 4, 4, 4, 4, "Good performance"⟩
         else JsonOutcome.decodeError "bad") "p" "r" none).passed = true ∧
     (grade_trajectory "gpt-4" (fun _ => Except.ok (some "```json\nBODY\n```"))
       (fun s => if s = "BODY" then JsonOutcome.ok ⟨4, 4, 4, 4, 4, "Good performance"⟩
         else JsonOutcome.decodeError "bad") [] [] [] [] none).averageScore = 4 ∧
     (grade_trajectory "gpt-4" (fun _ => Except.ok (some "```json\nBODY\n```"))
       (fun s => if s = "BODY" then JsonOutcome.ok ⟨4, 4, 4, 4, 4, "Good performance"⟩
         else JsonOutcome.decodeError "bad") [] [] [] [] none).passed = true) :=
  ⟨by decide, by decide, by decide, by decide,
   c6_json_fence_parsed "gpt-4" "```json\nBODY\n```" ["BODY"]
     (fun s => if s = "BODY" then JsonOutcome.ok ⟨4, 4, 4, 4, 4, "Good performance"⟩
       else JsonOutcome.decodeError "bad") "Good performance" "p" "r" none [] [] [] []
     (by decide) (by decide) (by decide) (by decide)⟩

/-- C7: when the fence-stripped judge text fails JSON decoding, both
grading modes return (rather than raise) the all-ones EvaluationResult
with average_score = 1, passed = false, and overall_comments equal to
"Failed to parse evaluation response: " followed by the decode error. -/
theorem c7_parse_failure_degrades (model text e : String) (judge : JudgeOracle)
    (parseEval : ParseOracle) (prompt srvResp : String) (er : Option String)
    (hist : List Message) (turns : List ConversationTurn) (used : List String)
    (details : List ToolCallRecord)
    (hj1 : judge (gradeEvalPrompt prompt srvResp) = Except.ok (some text))
    (hj2 : judge (trajectoryEvalPrompt hist turns used er) = Except.ok (some text))
    (hp : parseEval (cleanJudgeText text) = JsonOutcome.decodeError e) :
    grade model judge parseEval prompt srvResp er =
      { accuracy := 1, completeness := 1, relevance := 1, clarity := 1,
        reasoning := 1, averageScore := 1,
        overallComments := "Failed to parse evaluation response: " ++ e,
        passed := false, prompt := some prompt, serverResponse := some srvResp,
        expectedResult := er, modelUsed := model, serverSource := "unknown" } ∧
    grade_trajectory model judge parseEval hist turns used details er =
      { accuracy := 1, completeness := 1, relevance := 1, clarity := 1,
        reasoning := 1, averageScore := 1,
        overallComments := "Failed to parse evaluation response: " ++ e,
        passed := false, conversationHistory := hist, toolsUsed := used,
        expectedResult := er, modelUsed := model, serverSource := "unknown" } := by
  constructor
  · simp only [grade, hj1, hp]
  · simp only [grade_trajectory, hj2, hp]

/-- Witness for C7 at the concrete non-JSON judge text of the unit
tests. -/
theorem c7_parse_failure_degrades_witness :
    ((fun _ => Except.ok (some "Invalid JSON response") : JudgeOracle)
       (gradeEvalPrompt "p" "r") = Except.ok (some "Invalid JSON response")) ∧
    ((fun _ => Except.ok (some "Invalid JSON response") : JudgeOracle)
       (trajectoryEvalPrompt [] [] [] none) = Except.ok (some "Invalid JSON response")) ∧
    ((fun _ => JsonOutcome.decodeError "Expecting value" : ParseOracle)
       (cleanJudgeText "Invalid JSON response") = JsonOutcome.decodeError "Expecting value") ∧
    (grade "gpt-4" (fun _ => Except.ok (some "Invalid JSON response"))
       (fun _ => JsonOutcome.decodeError "Expecting value") "p" "r" none =
      { accuracy := 1, completeness := 1, relevance := 1, clarity := 1,
        reasoning := 1, averageScore := 1,
        overallComments := "Failed to parse evaluation response: " ++ "Expecting value",
        passed := false, prompt := some "p", serverResponse := some "r",
        expectedResult := none, modelUsed := "gpt-4", serverSource := "unknown" } ∧
     grade_trajectory "gpt-4" (fun _ => Except.ok (some "Invalid JSON response"))
       (fun _ => JsonOutcome.decodeError "Expecting value") [] [] [] [] none =
      { accuracy := 1, completeness := 1, relevance := 1, clarity := 1,
        reasoning := 1, averageScore := 1,
        overallComments := "Failed to parse evaluation response: " ++ "Expecting value",
        passed := false, conversationHistory := [], toolsUsed := [],
        expectedResult := none, modelUsed := "gpt-4", serverSource := "unknown" }) :=
  ⟨rfl, rfl, rfl,
   c7_parse_failure_degrades "gpt-4" "Invalid JSON response" "Expecting value"
     (fun _ => Except.ok (some "Invalid JSON response"))
     (fun _ => JsonOutcome.decodeError "Expecting value") "p" "r" none [] [] [] []
     rfl rfl rfl⟩

/-- C8: a successful tool invocation appends a record whose
result_preview truncates the formatted text to its first 100 characters
plus "..." (total length 103) exactly when the text exceeds 100
characters, leaves shorter texts unchanged, and the tool-response
message keeps the full text. -/
theorem c8_result_preview_truncation (callTool : ToolOracle) (tc : ToolCallSpec)
    (d : List ToolCallRecord) (u : List String) (res : ToolResultRep) (q : ℚ)
    (h : callTool tc.name tc.arguments = (Except.ok res, q)) :
    (execute_tool_call callTool tc d u).2.2.content = some (formatToolResult res) ∧
    (execute_tool_call callTool tc d u).1 = d ++
      [{ toolName := tc.name, arguments := tc.arguments, success := true,
         executionTimeMs := q,
         resultPreview := some (resultPreviewOf (formatToolResult res)) }] ∧
    (pyLen (formatToolResult res) > 100 →
      resultPreviewOf (formatToolResult res) = pyTake (formatToolResult res) 100 ++ "..." ∧
      pyLen (resultPreviewOf (formatToolResult res)) = 103) ∧
    (pyLen (formatToolResult res) ≤ 100 →
      resultPreviewOf (formatToolResult res) = formatToolResult res) := by
  have hout1 : (callTool tc.name tc.arguments).1 = Except.ok res := by rw [h]
  have hout2 : (callTool tc.name tc.arguments).2 = q := by rw [h]
  refine ⟨?_, ?_, ?_, ?_⟩
  · simp only [execute_tool_call, hout1]
  · simp only [execute_tool_call, hout1, hout2]
  · intro hl
    unfold resultPreviewOf
    rw [if_pos hl]
    refine ⟨rfl, ?_⟩
    have h3 : pyLen "..." = 3 := rfl
    simp only [pyLen, pyTake, String.data_append] at hl h3 ⊢
    rw [List.length_append, List.length_take]
    omega
  · intro hl
    unfold resultPreviewOf
    rw [if_neg (by omega)]

/-- Witness for C8 at a 150-character tool result. -/
theorem c8_result_preview_truncation_witness :
    ((fun _ _ => (Except.ok (ToolResultRep.dataField
        (String.mk (List.replicate 150 'x'))), (1 : ℚ)) : ToolOracle)
      (ToolCallSpec.name ⟨"call_123", some "function", "test_tool", "ARGS"⟩)
      (ToolCallSpec.arguments ⟨"call_123", some "function", "test_tool", "ARGS"⟩) =
      (Except.ok (ToolResultRep.dataField (String.mk (List.replicate 150 'x'))), 1)) ∧
    ((execute_tool_call
        (fun _ _ => (Except.ok (ToolResultRep.dataField
          (String.mk (List.replicate 150 'x'))), 1))
        ⟨"call_123", some "function", "test_tool", "ARGS"⟩ [] []).2.2.content =
      some (formatToolResult (ToolResultRep.dataField
        (String.mk (List.replicate 150 'x')))) ∧
     (execute_tool_call
        (fun _ _ => (Except.ok (ToolResultRep.dataField
          (String.mk (List.replicate 150 'x'))), 1))
        ⟨"call_123", some "function", "test_tool", "ARGS"⟩ [] []).1 = [] ++
      [{ toolName := "test_tool", arguments := "ARGS", success := true,
         executionTimeMs := 1,
         resultPreview := some (resultPreviewOf (formatToolResult
           (ToolResultRep.dataField (String.mk (List.replicate 150 'x'))))) }] ∧
     (pyLen (formatToolResult (ToolResultRep.dataField
        (String.mk (List.replicate 150 'x')))) > 100 →
      resultPreviewOf (formatToolResult (ToolResultRep.dataField
        (String.mk (List.replicate 150 'x')))) =
        pyTake (formatToolResult (ToolResultRep.dataField
          (String.mk (List.replicate 150 'x')))) 100 ++ "..." ∧
      pyLen (resultPreviewOf (formatToolResult (ToolResultRep.dataField
        (String.mk (List.replicate 150 'x'))))) = 103) ∧
     (pyLen (formatToolResult (ToolResultRep.dataField
        (String.mk (List.replicate 150 'x')))) ≤ 100 →
      resultPreviewOf (formatToolResult (ToolResultRep.dataField
        (String.mk (List.replicate 150 'x')))) =
        formatToolResult (ToolResultRep.dataField
          (String.mk (List.replicate 150 'x'))))) :=
  ⟨rfl,
   c8_result_preview_truncation
     (fun _ _ => (Except.ok (ToolResultRep.dataField
       (String.mk (List.replicate 150 'x'))), 1))
     ⟨"call_123", some "function", "test_tool", "ARGS"⟩ [] []
     (ToolResultRep.dataField (String.mk (List.replicate 150 'x'))) 1 rfl⟩

/-- Appending on the right preserves a string prefix. -/
lemma pyStartsWith_append (a b pre : String) (h : pyStartsWith a pre = true) :
    pyStartsWith (a ++ b) pre = true := by
  unfold pyStartsWith at h ⊢
  rw [String.data_append]
  rw [List.isPrefixOf_iff_prefix] at h ⊢
  exact h.trans (List.prefix_append _ _)

/-- Shape of the degraded result produced when the session with the
tool-providing server cannot be established: all five sub-scores 1,
average 1, passed false, error carrying the stringified exception, and
comments opening with the connection-failure text. -/
def degradedConnResult (r : EvaluationResult) (e : String) : Prop :=
  r.accuracy = 1 ∧ r.completeness = 1 ∧ r.relevance = 1 ∧ r.clarity = 1 ∧
  r.reasoning = 1 ∧ r.averageScore = 1 ∧ r.passed = false ∧ r.error = some e ∧
  pyStartsWith r.overallComments "Server connection" = true

/-- C9: when establishing the session with the tool-providing server
fails with exception e, both top-level evaluation functions return the
degraded EvaluationResult (all sub-scores 1, average 1.0, passed false,
error = e, comments naming the connection failure) and no judge grading
is attempted (the returned flag is false). -/
theorem c9_connection_failure_short_circuits (e : String) (judge : JudgeOracle)
    (parseEval : ParseOracle) (turns : List ConversationTurn) (model : String)
    (er : Option String) (serverSource prompt : String) :
    (evaluate_mcp_server_trajectory (Except.error e) judge parseEval turns model er
      serverSource).2 = false ∧
    degradedConnResult (evaluate_mcp_server_trajectory (Except.error e) judge parseEval
      turns model er serverSource).1 e ∧
    (evaluate_mcp_server (Except.error e) judge parseEval prompt model er
      serverSource).2 = false ∧
    degradedConnResult (evaluate_mcp_server (Except.error e) judge parseEval prompt
      model er serverSource).1 e := by
  refine ⟨rfl, ⟨rfl, rfl, rfl, rfl, rfl, rfl, rfl, rfl, ?_⟩,
    rfl, ⟨rfl, rfl, rfl, rfl, rfl, rfl, rfl, rfl, ?_⟩⟩
  · exact pyStartsWith_append _ _ _ (pyStartsWith_append _ _ _ (by decide))
  · exact pyStartsWith_append _ _ _ (pyStartsWith_append _ _ _ (by decide))

/-- The reversed-history scan equals a find? over the reversed list. -/
lemma extractResponse_find (l : List Message) :
    extractResponse l = (match l.find? (fun m => m.role == "assistant") with
      | some m => m.content.getD ""
      | none => "No response generated") := by
  induction l with
  | nil => rfl
  | cons m rest ih =>
    by_cases hr : m.role = "assistant"
    · rcases hc : m.content with _ | c <;>
        simp [extractResponse, List.find?, hr, hc, Option.getD]
    · simp only [extractResponse, List.find?, if_neg hr]
      have hb : (m.role == "assistant") = false := by
        simp [hr]
      rw [hb]
      exact ih

/-- C10: run_evals with no advertised tools returns exactly the fixed
text, independent of the collaborators (no turn is executed); with tools
it returns the content of the last assistant message of the produced
history (empty string for a None content), or the fallback text when no
assistant message exists. -/
theorem c10_run_evals_response_extraction (tools : List ToolInfo)
    (agent : AgentOracle) (callTool : ToolOracle) (prompt : String) :
    run_evals [] agent callTool prompt = "No tools available from the MCP server." ∧
    (tools ≠ [] →
      run_evals tools agent callTool prompt =
        match (run_evals_trajectory tools agent callTool
            [{ role := "user", content := prompt }]).1.reverse.find?
            (fun m => m.role == "assistant") with
        | some m => m.content.getD ""
        | none => "No response generated") := by
  constructor
  · rfl
  · intro ht
    have hne : tools.isEmpty = false := by
      cases tools with
      | nil => exact absurd rfl ht
      | cons a l => rfl
    simp only [run_evals, hne, Bool.false_eq_true, if_false]
    exact extractResponse_find _

/-- Witness for C10 on a server advertising one tool, with a failing
agent collaborator. -/
theorem c10_run_evals_response_extraction_witness :
    (([⟨"tool_a", "d", "s"⟩] : List ToolInfo) ≠ []) ∧
    run_evals [⟨"tool_a", "d", "s"⟩] (fun _ _ => Except.error "down")
      (fun _ _ => (Except.error "down", 0)) "hi" =
      match (run_evals_trajectory [⟨"tool_a", "d", "s"⟩]
          (fun _ _ => Except.error "down") (fun _ _ => (Except.error "down", 0))
          [{ role := "user", content := "hi" }]).1.reverse.find?
          (fun m => m.role == "assistant") with
      | some m => m.content.getD ""
      | none => "No response generated" :=
  ⟨by decide,
   (c10_run_evals_response_extraction [⟨"tool_a", "d", "s"⟩]
     (fun _ _ => Except.error "down") (fun _ _ => (Except.error "down", 0)) "hi").2
     (by decide)⟩

end Pymcpevals
